import Mathlib

/-!
Verification of the delta-violation penalty core of
`Zerodha-Delta-penalty-calculator` (src/Delta.py).

The core is three pure functions plus a list sum:
- `calculate_position_delta` (the Position Valuer),
- `calculate_penalty` (the Penalty Calculator),
- `check_violation` (the Violation Detector),
- the module-level `sum` over each book's stored `Position Delta` values.

Numbers are modelled as rationals (`ℚ`); the Python source coerces its
inputs with `float(...)`, which is the identity on already-numeric values,
so the coercions are dropped. Strings model the string-typed `pos_type`,
`direction` and reason values exactly as written in the source.
-/

namespace Delta

/-- Result record of `check_violation`: the Python function returns the
tuple `(has_violation, violation_quantity, violation_reason)`. -/
structure ViolationResult where
  has_violation : Bool
  violation_qty : ℚ
  reason : String
deriving Repr, DecidableEq

/-- Result record of `calculate_penalty`: the Python function returns the
tuple `(penalty_amount, final_penalty, gst, total_penalty)`. -/
structure PenaltyResult where
  penalty_amount : ℚ
  final_penalty : ℚ
  gst : ℚ
  total_penalty : ℚ
deriving Repr, DecidableEq

/-- Embedding of `calculate_position_delta` (src/Delta.py lines 87-105).
The trailing `else` branch of the source is the `Put Option` branch and
also catches every unrecognized `pos_type`; every `direction` other than
`"Long"` takes the short alternative. -/
def calculate_position_delta (pos_type direction : String)
    (qty delta_value : ℚ) : ℚ :=
  if pos_type = "Future" then
    let effective_delta : ℚ := if direction = "Long" then 1 else -1
    effective_delta * qty
  else if pos_type = "Call Option" then
    let effective_delta := if direction = "Long" then delta_value else -delta_value
    effective_delta * qty
  else
    let effective_delta := if direction = "Long" then -|delta_value| else |delta_value|
    effective_delta * qty

/-- Embedding of `calculate_penalty` (src/Delta.py lines 107-113). -/
def calculate_penalty (delta_violation stock_price : ℚ) : PenaltyResult :=
  let penalty_amount := |delta_violation| * stock_price * 0.01
  let final_penalty := max 5000 (min 100000 penalty_amount)
  let gst := final_penalty * 0.18
  let total_penalty := final_penalty + gst
  ⟨penalty_amount, final_penalty, gst, total_penalty⟩

/-- Embedding of `check_violation` (src/Delta.py lines 115-142).
The source's same-sign branch computes `delta_increased` through an
`if base_delta < 0` whose two arms are the same comparison; the redundant
branch is kept to mirror the source. -/
def check_violation (net_delta base_delta : ℚ) : ViolationResult :=
  if base_delta = 0 then
    ⟨decide (net_delta ≠ 0), |net_delta|, "From zero to non-zero"⟩
  else
    let sign_changed := (net_delta > 0 ∧ base_delta < 0) ∨ (net_delta < 0 ∧ base_delta > 0)
    if sign_changed then
      ⟨true, |net_delta - base_delta|,
        if net_delta > 0 then "Sign changed from negative to positive"
        else "Sign changed from positive to negative"⟩
    else
      let delta_increased := if base_delta < 0 then decide (net_delta > base_delta)
        else decide (net_delta > base_delta)
      if delta_increased then
        ⟨true, |net_delta - base_delta|, "Net Delta increased in same direction"⟩
      else
        ⟨false, 0, "No violation - Delta decreased or remained same"⟩

/-- One entry of a position book, as appended by the UI forms
(src/Delta.py lines 257-263): the fields fed to `calculate_position_delta`. -/
structure Position where
  posType : String
  direction : String
  quantity : ℚ
  delta : ℚ
deriving Repr, DecidableEq

/-- The `'Position Delta'` value stored on a row at creation time
(src/Delta.py lines 256, 318). -/
def positionDelta (p : Position) : ℚ :=
  calculate_position_delta p.posType p.direction p.quantity p.delta

/-- Embedding of the module-level aggregation
`sum([pos['Position Delta'] for pos in positions])`
(src/Delta.py lines 375-376): Python's `sum` is a left fold from 0. -/
def aggregateDelta (book : List Position) : ℚ :=
  book.foldl (fun acc p => acc + positionDelta p) 0

lemma aggregateDelta_foldl (acc : ℚ) (book : List Position) :
    book.foldl (fun a p => a + positionDelta p) acc
      = acc + (book.map positionDelta).sum := by
  induction book generalizing acc with
  | nil => simp
  | cons p rest ih => simp [ih, add_assoc]

/-- C4: Put valuation forces the sensitivity to a magnitude before the
direction assigns its sign: Long puts contribute `-|s| * q`, Short puts
`|s| * q`, for every real sensitivity `s`. -/
theorem put_sign_depends_only_on_direction (q s : ℚ) :
    calculate_position_delta "Put Option" "Long" q s = -|s| * q ∧
    calculate_position_delta "Put Option" "Short" q s = |s| * q := by
  constructor <;> simp [calculate_position_delta]

/-- C5: Call valuation passes the sensitivity sign through as given:
Long calls contribute `s * q`, Short calls `-s * q`, with no forcing to a
magnitude and no clamping. -/
theorem call_sensitivity_passed_through (q s : ℚ) :
    calculate_position_delta "Call Option" "Long" q s = s * q ∧
    calculate_position_delta "Call Option" "Short" q s = -s * q := by
  constructor <;> simp [calculate_position_delta]

/-- C8: Future valuation ignores the sensitivity entirely: Long futures
contribute `q`, Short futures `-q`, for every sensitivity value. -/
theorem future_ignores_sensitivity (q s : ℚ) :
    calculate_position_delta "Future" "Long" q s = q ∧
    calculate_position_delta "Future" "Short" q s = -q := by
  constructor <;> simp [calculate_position_delta]

/-- C1: with a nonzero base aggregate and a new aggregate not of strictly
opposite sign, `check_violation` flags a violation iff the new aggregate
exceeds the base; the magnitude is then `|n - b|`, and otherwise the result
is no violation with magnitude 0 — one comparison covers positive and
negative bases alike. -/
theorem same_sign_violation_iff_increase (n b : ℚ) (hb : b ≠ 0)
    (hopp : ¬ ((n > 0 ∧ b < 0) ∨ (n < 0 ∧ b > 0))) :
    ((check_violation n b).has_violation = true ↔ n > b) ∧
    (n > b → (check_violation n b).violation_qty = |n - b|) ∧
    (¬ n > b → (check_violation n b).has_violation = false ∧
      (check_violation n b).violation_qty = 0) := by
  by_cases h : n > b <;>
    simp [check_violation, hb, hopp, h, ite_self]

/-- Witness for C1 at the spec's example `check_violation (-1) (-5)`:
a same-sign pair with nonzero base, yielding a violation of magnitude 4. -/
theorem same_sign_violation_iff_increase_witness :
    ((check_violation (-1) (-5)).has_violation = true ↔ (-1 : ℚ) > -5) ∧
    ((-1 : ℚ) > -5 → (check_violation (-1) (-5)).violation_qty = |(-1 : ℚ) - -5|) ∧
    (¬ (-1 : ℚ) > -5 → (check_violation (-1) (-5)).has_violation = false ∧
      (check_violation (-1) (-5)).violation_qty = 0) :=
  same_sign_violation_iff_increase (-1) (-5) (by norm_num) (by norm_num)

/-- C2: strictly opposite signs always yield a violation, with magnitude
`|n - b|` and a reason naming the direction of the sign change according
to the sign the new aggregate ended up with. -/
theorem sign_change_always_violation (n b : ℚ)
    (h : (n > 0 ∧ b < 0) ∨ (n < 0 ∧ b > 0)) :
    (check_violation n b).has_violation = true ∧
    (check_violation n b).violation_qty = |n - b| ∧
    (n > 0 → (check_violation n b).reason = "Sign changed from negative to positive") ∧
    (¬ n > 0 → (check_violation n b).reason = "Sign changed from positive to negative") := by
  rcases h with ⟨hn, hbneg⟩ | ⟨hn, hbpos⟩
  · have hb : b ≠ 0 := ne_of_lt hbneg
    simp [check_violation, hb, hn, hbneg]
  · have hb : b ≠ 0 := ne_of_gt hbpos
    simp [check_violation, hb, hn, hbpos, asymm hn]

/-- Witness for C2 at the spec's example `check_violation 5 (-3)`:
a sign change with magnitude `|5 - (-3)| = 8`. -/
theorem sign_change_always_violation_witness :
    (check_violation 5 (-3)).has_violation = true ∧
    (check_violation 5 (-3)).violation_qty = |(5 : ℚ) - -3| ∧
    ((5 : ℚ) > 0 → (check_violation 5 (-3)).reason = "Sign changed from negative to positive") ∧
    (¬ (5 : ℚ) > 0 → (check_violation 5 (-3)).reason = "Sign changed from positive to negative") :=
  sign_change_always_violation 5 (-3) (Or.inl ⟨by norm_num, by norm_num⟩)

/-- C3 counterexample: at `check_violation 0 0` the code returns no
violation with magnitude 0, but the reason string is
`"From zero to non-zero"`, not a "no violation" reason as the claim
states. -/
theorem zero_base_zero_new_reason_counterexample :
    (check_violation 0 0).has_violation = false ∧
    (check_violation 0 0).violation_qty = 0 ∧
    (check_violation 0 0).reason = "From zero to non-zero" ∧
    (check_violation 0 0).reason ≠ "No violation - Delta decreased or remained same" := by
  refine ⟨?_, ?_, ?_, ?_⟩ <;> simp [check_violation]

/-- C3 amended: with base aggregate 0, `check_violation` flags a
violation iff the new aggregate is nonzero, with magnitude `|n|`; the
reason is `"From zero to non-zero"` in this branch unconditionally, even
when the new aggregate is also 0 (no violation, magnitude 0). -/
theorem zero_base_detection (n : ℚ) :
    ((check_violation n 0).has_violation = true ↔ n ≠ 0) ∧
    (check_violation n 0).violation_qty = |n| ∧
    (check_violation n 0).reason = "From zero to non-zero" := by
  simp [check_violation]

/-- C6: the penalty pipeline computes raw `= |m| * p * 0.01`, clamps it
into `[5000, 100000]`, adds an 18% surcharge, and totals clamp plus
surcharge; the 5000 floor applies even for magnitude 0, and the function
is total. -/
theorem penalty_formula (m p : ℚ) :
    (calculate_penalty m p).penalty_amount = |m| * p * 0.01 ∧
    (calculate_penalty m p).final_penalty
      = max 5000 (min 100000 (|m| * p * 0.01)) ∧
    (calculate_penalty m p).gst = (calculate_penalty m p).final_penalty * 0.18 ∧
    (calculate_penalty m p).total_penalty
      = (calculate_penalty m p).final_penalty + (calculate_penalty m p).gst ∧
    (calculate_penalty 0 p).final_penalty = 5000 := by
  refine ⟨rfl, rfl, rfl, rfl, ?_⟩
  show max 5000 (min 100000 (|(0 : ℚ)| * p * 0.01)) = 5000
  norm_num

/-- C7: a nonzero magnitude with a negative reference price is not
rejected: the raw amount is negative and the clamp floors the final
penalty to exactly 5000, so the surcharge is 900 and the total 5900. -/
theorem negative_price_floored (m p : ℚ) (hm : m ≠ 0) (hp : p < 0) :
    (calculate_penalty m p).penalty_amount < 0 ∧
    (calculate_penalty m p).final_penalty = 5000 ∧
    (calculate_penalty m p).gst = 900 ∧
    (calculate_penalty m p).total_penalty = 5900 := by
  have habs : 0 < |m| := abs_pos.mpr hm
  have hraw : |m| * p * 0.01 < 0 := by
    have h1 : |m| * p < 0 := mul_neg_of_pos_of_neg habs hp
    exact mul_neg_of_neg_of_pos h1 (by norm_num)
  have hmin : min (100000 : ℚ) (|m| * p * 0.01) = |m| * p * 0.01 :=
    min_eq_right (le_of_lt (lt_trans hraw (by norm_num)))
  have hmax : max (5000 : ℚ) (|m| * p * 0.01) = 5000 :=
    max_eq_left (le_of_lt (lt_trans hraw (by norm_num)))
  refine ⟨hraw, ?_, ?_, ?_⟩ <;>
    simp only [calculate_penalty, hmin, hmax] <;> norm_num

/-- Witness for C7 at magnitude 1 and price -1: floor 5000, surcharge
900, total 5900. -/
theorem negative_price_floored_witness :
    (calculate_penalty 1 (-1)).penalty_amount < 0 ∧
    (calculate_penalty 1 (-1)).final_penalty = 5000 ∧
    (calculate_penalty 1 (-1)).gst = 900 ∧
    (calculate_penalty 1 (-1)).total_penalty = 5900 :=
  negative_price_floored 1 (-1) (by norm_num) (by norm_num)

/-- C9: the aggregate of a book is the sum of each position's
contribution, and the empty book aggregates to exactly 0. -/
theorem aggregate_eq_sum_of_contributions (book : List Position) :
    aggregateDelta book = (book.map positionDelta).sum ∧
    aggregateDelta ([] : List Position) = 0 := by
  refine ⟨?_, rfl⟩
  simpa using aggregateDelta_foldl 0 book

/-- C10: every kind other than `"Future"` and `"Call Option"` — the
string `"Put Option"` included, but also any unrecognized value — takes
the Put branch without rejection, and any direction other than `"Long"`
is treated as Short in every branch of the valuer. -/
theorem fallback_kind_and_direction (kind dir : String) (q s : ℚ)
    (hk1 : kind ≠ "Future") (hk2 : kind ≠ "Call Option") :
    calculate_position_delta kind dir q s
      = (if dir = "Long" then -|s| * q else |s| * q) ∧
    (dir ≠ "Long" → ∀ (k : String) (q2 s2 : ℚ),
      calculate_position_delta k dir q2 s2
        = calculate_position_delta k "Short" q2 s2) := by
  constructor
  · by_cases hd : dir = "Long" <;>
      simp [calculate_position_delta, hk1, hk2, hd]
  · intro hd k q2 s2
    simp [calculate_position_delta, hd]

/-- Witness for C10 at the unrecognized kind `"Swap"` and the
non-Long direction `"Sell"` with quantity 2 and sensitivity -3. -/
theorem fallback_kind_and_direction_witness :
    (calculate_position_delta "Swap" "Sell" 2 (-3)
      = (if "Sell" = "Long" then -|(-3 : ℚ)| * 2 else |(-3 : ℚ)| * 2)) ∧
    ("Sell" ≠ "Long" → ∀ (k : String) (q2 s2 : ℚ),
      calculate_position_delta k "Sell" q2 s2
        = calculate_position_delta k "Short" q2 s2) :=
  fallback_kind_and_direction "Swap" "Sell" 2 (-3) (by decide) (by decide)

end Delta
